import Mathlib

/-!
Verification of the hyper-stack-builder orchestration core.

The Go sources are shallowly embedded as pure Lean functions:

* `internal/ssh/client.go` — the SSH client (`Client`, `Close`, `CopyFile`,
  `ExecuteCommand`, `ExecuteScript`). Remote outcomes are supplied by an
  `SshEnv` oracle: `run` gives the result of `session.Run` for one operation
  (session-creation failures are folded into the same outcome), `openLocal`
  gives the result of opening/stat-ing the local file inside `CopyFile`, and
  `stat` gives the three-way result of `os.Stat` used by the pre-checks in
  `main.go`.
* `main.go`, functions `executeScripts` / `deployFiles` /
  `executeProvisioningScripts` — the provisioning pipeline. The embedding
  additionally returns the list of client operations invoked and the list of
  steps the loops began processing, so that ordering/halting claims can be
  stated; this instrumentation does not alter control flow.
* `internal/client/hyperstack.go` — the HTTP response handling
  (`parseAPIResponse`, `CreateSnapshot`, `WaitForVMReady`,
  `WaitForSnapshotReady`, `DeleteVM`). An HTTP response is abstracted as its
  status code, raw body text, the parse of the `{status, message}` envelope,
  and the parse of the target payload.
* `main.go`, function `main` (from config load onward) — the build
  orchestration, over an oracle giving each external call's outcome;
  `log.Fatalf` is modelled as immediately returning a failed verdict.

Go errors are modelled by `GoErr`: `GoErr.msg` is a leaf error
(`fmt.Errorf` with no `%w`), `GoErr.wrap p c` is `fmt.Errorf("<p>: %w", c)`.
-/

/-- Go error values: a leaf message, or a message wrapping a cause
(the `fmt.Errorf("...: %w", err)` pattern). -/
inductive GoErr : Type
  | msg (s : String)
  | wrap (m : String) (cause : GoErr)
  deriving Repr, DecidableEq

/-- One operation invoked on the SSH client: `ExecuteCommand cmd`, or
`CopyFile localPath remotePath`. -/
inductive ScpOp : Type
  | command (cmd : String)
  | copy (localPath remotePath : String)
  deriving Repr, DecidableEq

/-- Result of `os.Stat` on a local path, as distinguished by the Go
pre-checks: success, an error for which `os.IsNotExist` is true, or any
other error (e.g. permission denied). -/
inductive StatRes : Type
  | ok
  | errNotExist
  | errOther
  deriving Repr, DecidableEq

/-- Oracle fixing the outcome of every local-filesystem and remote
operation during one provisioning run. -/
structure SshEnv : Type where
  /-- Outcome of `os.Stat` on a local path (used by the pre-checks). -/
  stat : String → StatRes
  /-- Outcome of opening and stat-ing the local file inside `CopyFile`
  (`none` = success, `some e` = the underlying error). -/
  openLocal : String → Option GoErr
  /-- Outcome of creating a session and running one remote operation
  (`none` = success, `some e` = the underlying error). -/
  run : ScpOp → Option GoErr
  /-- Result of closing the underlying connection, when one exists. -/
  closeResult : Option GoErr

/-- The `ssh.Client` value: `connected = true` models `c.client ≠ nil`
(a successfully established connection). -/
structure SshClient : Type where
  connected : Bool
  deriving Repr, DecidableEq

/-- `Close` (client.go:75): closes the connection when one exists,
otherwise returns nil. -/
def sshClose (c : SshClient) (env : SshEnv) : Option GoErr :=
  if c.connected then env.closeResult else none

/-- `ExecuteCommand` (client.go:128): nil-connection guard, then run the
command in a fresh session; a failure is wrapped as `command failed`. -/
def executeCommandRes (c : SshClient) (env : SshEnv) (cmd : String) : Option GoErr :=
  if c.connected = false then some (GoErr.msg "SSH connection not established")
  else
    match env.run (ScpOp.command cmd) with
    | some e => some (GoErr.wrap "command failed" e)
    | none => none

/-- `CopyFile` (client.go:83): nil-connection guard, open/stat the local
file, then run the SCP transfer in a fresh session. -/
def copyFileRes (c : SshClient) (env : SshEnv) (localPath remotePath : String) : Option GoErr :=
  if c.connected = false then some (GoErr.msg "SSH connection not established")
  else
    match env.openLocal localPath with
    | some e => some (GoErr.wrap "failed to open local file" e)
    | none =>
      match env.run (ScpOp.copy localPath remotePath) with
      | some e => some (GoErr.wrap "failed to execute SCP" e)
      | none => none

/-- `ExecuteScript` (client.go:152): `chmod +x` the remote file, then run
it; each phase wraps its failure with its own message, and the traced
commands are exactly those attempted. -/
def executeScriptT (c : SshClient) (env : SshEnv) (scriptPath : String) :
    List ScpOp × Option GoErr :=
  match executeCommandRes c env ("chmod +x " ++ scriptPath) with
  | some e => ([ScpOp.command ("chmod +x " ++ scriptPath)],
      some (GoErr.wrap "failed to make script executable" e))
  | none =>
    match executeCommandRes c env scriptPath with
    | some e => ([ScpOp.command ("chmod +x " ++ scriptPath), ScpOp.command scriptPath],
        some (GoErr.wrap "failed to execute script" e))
    | none => ([ScpOp.command ("chmod +x " ++ scriptPath), ScpOp.command scriptPath], none)

/-- `FileDeployment` (main.go:18). -/
structure FileDeployment : Type where
  LocalPath : String
  RemotePath : String
  deriving Repr, DecidableEq

/-- One provisioning step: a scripted step (by script name) or a
file-deployment step. -/
inductive Step : Type
  | script (name : String)
  | file (d : FileDeployment)
  deriving Repr, DecidableEq

/-- `filepath.Join dir name` for the simple `dir`/`name` shapes the
pipeline builds. -/
def joinPath (dir name : String) : String := dir ++ "/" ++ name

/-- `filepath.Base`: the final element of the path. -/
def basename (p : String) : String := (p.splitOn "/").getLastD ""

/-- `filepath.Dir`: the path with its final element removed (for the
multi-component absolute paths used by the file deployments). -/
def dirname (p : String) : String :=
  String.intercalate "/" ((p.splitOn "/").dropLast)

/-- The per-script loop body of `executeScripts` (main.go:54-77): stat
pre-check, `CopyFile`, then `ExecuteScript`, stopping at the first
failure. Returns the client operations invoked, the steps the loop began
processing, and the final result. -/
def executeScriptsLoop (c : SshClient) (env : SshEnv) (scriptDir remoteScriptDir : String) :
    List String → List ScpOp × List Step × Option GoErr
  | [] => ([], [], none)
  | s :: rest =>
    let localPath := joinPath scriptDir s
    let remotePath := joinPath remoteScriptDir s
    if env.stat localPath = StatRes.errNotExist then
      ([], [Step.script s], some (GoErr.msg ("local script not found: " ++ localPath)))
    else
      match copyFileRes c env localPath remotePath with
      | some e => ([ScpOp.copy localPath remotePath], [Step.script s],
          some (GoErr.wrap ("failed to copy script " ++ s) e))
      | none =>
        let es := executeScriptT c env remotePath
        match es.2 with
        | some e => (ScpOp.copy localPath remotePath :: es.1, [Step.script s],
            some (GoErr.wrap ("failed to execute script " ++ s) e))
        | none =>
          let r := executeScriptsLoop c env scriptDir remoteScriptDir rest
          (ScpOp.copy localPath remotePath :: es.1 ++ r.1, Step.script s :: r.2.1, r.2.2)

/-- `executeScripts` (main.go:46): create the remote scratch directory,
then run the per-script loop. -/
def executeScripts (c : SshClient) (env : SshEnv) (scripts : List String)
    (scriptDir remoteScriptDir : String) : List ScpOp × List Step × Option GoErr :=
  match executeCommandRes c env ("mkdir -p " ++ remoteScriptDir) with
  | some e => ([ScpOp.command ("mkdir -p " ++ remoteScriptDir)], [],
      some (GoErr.wrap "failed to create remote script directory" e))
  | none =>
    let r := executeScriptsLoop c env scriptDir remoteScriptDir scripts
    (ScpOp.command ("mkdir -p " ++ remoteScriptDir) :: r.1, r.2.1, r.2.2)

/-- The per-deployment loop body of `deployFiles` (main.go:85-111): stat
pre-check, privileged mkdir of the destination directory, `CopyFile` to a
staging path under `/tmp`, then a privileged move, stopping at the first
failure. -/
def deployFilesLoop (c : SshClient) (env : SshEnv) (filesDir : String) :
    List FileDeployment → List ScpOp × List Step × Option GoErr
  | [] => ([], [], none)
  | d :: rest =>
    let localPath := joinPath filesDir d.LocalPath
    if env.stat localPath = StatRes.errNotExist then
      ([], [Step.file d], some (GoErr.msg ("local file not found: " ++ localPath)))
    else
      let remoteDir := dirname d.RemotePath
      match executeCommandRes c env ("sudo mkdir -p " ++ remoteDir) with
      | some e => ([ScpOp.command ("sudo mkdir -p " ++ remoteDir)], [Step.file d],
          some (GoErr.wrap ("failed to create remote directory " ++ remoteDir) e))
      | none =>
        let tempPath := "/tmp/" ++ basename d.LocalPath
        match copyFileRes c env localPath tempPath with
        | some e => ([ScpOp.command ("sudo mkdir -p " ++ remoteDir),
              ScpOp.copy localPath tempPath], [Step.file d],
            some (GoErr.wrap ("failed to copy file " ++ d.LocalPath) e))
        | none =>
          match executeCommandRes c env ("sudo mv " ++ tempPath ++ " " ++ d.RemotePath) with
          | some e => ([ScpOp.command ("sudo mkdir -p " ++ remoteDir),
                ScpOp.copy localPath tempPath,
                ScpOp.command ("sudo mv " ++ tempPath ++ " " ++ d.RemotePath)], [Step.file d],
              some (GoErr.wrap ("failed to move file to " ++ d.RemotePath) e))
          | none =>
            let r := deployFilesLoop c env filesDir rest
            (ScpOp.command ("sudo mkdir -p " ++ remoteDir) ::
                ScpOp.copy localPath tempPath ::
                ScpOp.command ("sudo mv " ++ tempPath ++ " " ++ d.RemotePath) :: r.1,
             Step.file d :: r.2.1, r.2.2)

/-- The provisioning pipeline after the SSH connection is established
(`executeProvisioningScripts`, main.go:138-154): scripts phase, then file
deployments, then a best-effort removal of the scratch directory whose
failure is only logged. -/
def runPipeline (c : SshClient) (env : SshEnv) (scripts : List String)
    (deps : List FileDeployment) (scriptDir filesDir remoteScriptDir : String) :
    List ScpOp × List Step × Option GoErr :=
  let r1 := executeScripts c env scripts scriptDir remoteScriptDir
  match r1.2.2 with
  | some e => (r1.1, r1.2.1, some (GoErr.wrap "failed to execute scripts" e))
  | none =>
    let r2 := deployFilesLoop c env filesDir deps
    match r2.2.2 with
    | some e => (r1.1 ++ r2.1, r1.2.1 ++ r2.2.1, some (GoErr.wrap "failed to deploy files" e))
    | none =>
      (r1.1 ++ r2.1 ++ [ScpOp.command ("rm -rf " ++ remoteScriptDir)],
       r1.2.1 ++ r2.2.1, none)

/-- The declared step list: scripts first, then file deployments
(`executeProvisioningScripts` runs `executeScripts` before `deployFiles`). -/
def stepList (scripts : List String) (deps : List FileDeployment) : List Step :=
  scripts.map Step.script ++ deps.map Step.file

/-- A scripted step succeeds end to end: the stat pre-check passes, the
copy succeeds and both commands of `ExecuteScript` succeed. -/
def scriptOk (c : SshClient) (env : SshEnv) (scriptDir remoteScriptDir : String)
    (s : String) : Bool :=
  (env.stat (joinPath scriptDir s) != StatRes.errNotExist)
    && (copyFileRes c env (joinPath scriptDir s) (joinPath remoteScriptDir s) == none)
    && ((executeScriptT c env (joinPath remoteScriptDir s)).2 == none)

/-- A file-deployment step succeeds end to end. -/
def fileOk (c : SshClient) (env : SshEnv) (filesDir : String) (d : FileDeployment) : Bool :=
  (env.stat (joinPath filesDir d.LocalPath) != StatRes.errNotExist)
    && (executeCommandRes c env ("sudo mkdir -p " ++ dirname d.RemotePath) == none)
    && (copyFileRes c env (joinPath filesDir d.LocalPath)
          ("/tmp/" ++ basename d.LocalPath) == none)
    && (executeCommandRes c env
          ("sudo mv " ++ ("/tmp/" ++ basename d.LocalPath) ++ " " ++ d.RemotePath) == none)

/-- A provisioning step succeeds end to end. -/
def stepOk (c : SshClient) (env : SshEnv) (scriptDir filesDir remoteScriptDir : String) :
    Step → Bool
  | Step.script s => scriptOk c env scriptDir remoteScriptDir s
  | Step.file d => fileOk c env filesDir d

/-- The client operations a fully successful step performs, in order. -/
def stepOps (scriptDir filesDir remoteScriptDir : String) : Step → List ScpOp
  | Step.script s =>
    [ScpOp.copy (joinPath scriptDir s) (joinPath remoteScriptDir s),
     ScpOp.command ("chmod +x " ++ joinPath remoteScriptDir s),
     ScpOp.command (joinPath remoteScriptDir s)]
  | Step.file d =>
    [ScpOp.command ("sudo mkdir -p " ++ dirname d.RemotePath),
     ScpOp.copy (joinPath filesDir d.LocalPath) ("/tmp/" ++ basename d.LocalPath),
     ScpOp.command ("sudo mv " ++ ("/tmp/" ++ basename d.LocalPath) ++ " " ++ d.RemotePath)]

/-- The errors `executeScripts` / `deployFiles` can return for a given
step; each names the step's script name or file path. -/
def stepErrFor (scriptDir filesDir : String) (st : Step) (e : GoErr) : Prop :=
  match st with
  | Step.script s =>
    e = GoErr.msg ("local script not found: " ++ joinPath scriptDir s)
      ∨ (∃ c, e = GoErr.wrap ("failed to copy script " ++ s) c)
      ∨ (∃ c, e = GoErr.wrap ("failed to execute script " ++ s) c)
  | Step.file d =>
    e = GoErr.msg ("local file not found: " ++ joinPath filesDir d.LocalPath)
      ∨ (∃ c, e = GoErr.wrap ("failed to create remote directory " ++ dirname d.RemotePath) c)
      ∨ (∃ c, e = GoErr.wrap ("failed to copy file " ++ d.LocalPath) c)
      ∨ (∃ c, e = GoErr.wrap ("failed to move file to " ++ d.RemotePath) c)

/-- The phase wrapper `executeProvisioningScripts` adds around a failing
step's error (main.go:139, main.go:144). -/
def phaseWrap : Step → String
  | Step.script _ => "failed to execute scripts"
  | Step.file _ => "failed to deploy files"

/-! ## HTTP response handling (internal/client/hyperstack.go) -/

/-- An HTTP response from the Hyperstack API, abstracted by what the Go
response handlers inspect: the status code, the raw body text (reported in
HTTP-level error messages), the JSON parse of the `{status, message}`
envelope (`none` = malformed JSON), and the JSON parse of the
endpoint-specific payload (`none` = the target decode fails). -/
structure ApiResp (α : Type) : Type where
  statusCode : Nat
  rawBody : String
  envelope : Option (Bool × String)
  payload : Option α

/-- `parseAPIResponse` (hyperstack.go:56): reject non-200/201 statuses
with the raw body, parse the `{status, message}` envelope, treat a false
`status` flag as an error even on HTTP success, then decode the target. -/
def parseAPIResponse {α : Type} (r : ApiResp α) : Except String α :=
  if ¬(r.statusCode = 200 ∨ r.statusCode = 201) then
    Except.error ("API request failed: status " ++ toString r.statusCode
      ++ ", body: " ++ r.rawBody)
  else
    match r.envelope with
    | none => Except.error "failed to parse API response wrapper"
    | some (status, message) =>
      if status = false then Except.error ("API returned error: " ++ message)
      else
        match r.payload with
        | none => Except.error "failed to parse response data"
        | some a => Except.ok a

/-- `types.Snapshot`, reduced to the fields the core reads. -/
structure Snapshot : Type where
  id : Int
  name : String
  status : String
  deriving Repr, DecidableEq

/-- The response handling of `CreateSnapshot` (hyperstack.go:183-195):
only the HTTP status is checked (with the raw body reported on failure);
the decoded snapshot is returned without consulting the envelope's
`status` flag. -/
def createSnapshotHandle (r : ApiResp Snapshot) : Except String Snapshot :=
  if ¬(r.statusCode = 200 ∨ r.statusCode = 201) then
    Except.error ("failed to create snapshot: status " ++ toString r.statusCode
      ++ ", body: " ++ r.rawBody)
  else
    match r.payload with
    | none => Except.error "failed to decode snapshot response"
    | some s => Except.ok s

/-- The response handling of `DeleteVM` (hyperstack.go:250-255): only the
HTTP status (204 or 200) is checked, with the raw body reported on
failure; the envelope flag is not consulted. -/
def deleteVMHandle (r : ApiResp Unit) : Except String Unit :=
  if ¬(r.statusCode = 204 ∨ r.statusCode = 200) then
    Except.error ("failed to delete VM: status " ++ toString r.statusCode
      ++ ", body: " ++ r.rawBody)
  else Except.ok ()

/-- The per-poll response handling of `WaitForSnapshotReady`
(hyperstack.go:205-210): the body is decoded directly; neither the HTTP
status nor the envelope flag is checked. -/
def snapshotPollStep (r : ApiResp Snapshot) : Except String Snapshot :=
  match r.payload with
  | none => Except.error "failed to decode snapshot detail response"
  | some s => Except.ok s

/-- `types.VMInstance`, reduced to the fields the readiness poll reads. -/
structure VMView : Type where
  status : String
  floatingIP : String
  floatingIPStatus : String
  deriving Repr, DecidableEq

/-- The readiness predicate of `WaitForVMReady` (hyperstack.go:144):
status `ACTIVE`, a non-empty floating IP, and attachment `ATTACHED`. -/
def vmReady (vm : VMView) : Bool :=
  vm.status == "ACTIVE" && vm.floatingIP != "" && vm.floatingIPStatus == "ATTACHED"

/-- One build's poll responses: `polls i` is the outcome of the i-th GET
(`Except.error` = transport failure of `makeRequest`). -/
def PollSeq (α : Type) : Type := Nat → Except String (ApiResp α)

/-- The loop of `WaitForVMReady` (hyperstack.go:130-152), with the
remaining attempt budget explicit: each iteration issues one GET, feeds
it through `parseAPIResponse`, succeeds with the floating IP when the
readiness predicate holds, and otherwise sleeps and repolls; an exhausted
budget is the timeout error. -/
def waitForVMReadyAux (polls : PollSeq VMView) : Nat → Nat → Except String String
  | 0, _ => Except.error "VM did not become ready with floating IP within timeout"
  | fuel + 1, i =>
    match polls i with
    | Except.error e => Except.error e
    | Except.ok r =>
      match parseAPIResponse r with
      | Except.error e => Except.error e
      | Except.ok vm =>
        if vmReady vm then Except.ok vm.floatingIP
        else waitForVMReadyAux polls fuel (i + 1)

/-- `WaitForVMReady`: 60 attempts starting at poll 0. -/
def waitForVMReady (polls : PollSeq VMView) : Except String String :=
  waitForVMReadyAux polls 60 0

/-- The loop of `WaitForSnapshotReady` (hyperstack.go:200-221): each
iteration issues one GET, decodes it (no status/envelope check), succeeds
when the snapshot status is `SUCCESS`, otherwise repolls; an exhausted
budget is the timeout error. -/
def waitForSnapshotReadyAux (polls : PollSeq Snapshot) : Nat → Nat → Except String Unit
  | 0, _ => Except.error "snapshot did not become ready within timeout"
  | fuel + 1, i =>
    match polls i with
    | Except.error e => Except.error e
    | Except.ok r =>
      match snapshotPollStep r with
      | Except.error e => Except.error e
      | Except.ok s =>
        if s.status == "SUCCESS" then Except.ok ()
        else waitForSnapshotReadyAux polls fuel (i + 1)

/-- `WaitForSnapshotReady`: 120 attempts starting at poll 0. -/
def waitForSnapshotReady (polls : PollSeq Snapshot) : Except String Unit :=
  waitForSnapshotReadyAux polls 120 0

/-! ## Build orchestration (main.go, function main) -/

/-- `types.Config`, restricted to the fields the build flow reads. -/
structure Config : Type where
  ImageName : String
  ImageVersion : String
  VMName : String
  PrivateKeyPath : String
  Tags : List String
  deriving Repr, DecidableEq

/-- A created VM instance, reduced to the fields `main` reads. -/
structure VMInst : Type where
  id : Int
  name : String
  deriving Repr, DecidableEq

/-- The final image, reduced to the fields `main` reads. -/
structure Image : Type where
  id : Int
  name : String
  deriving Repr, DecidableEq

/-- The outcome of each external call one build makes, fixed up front:
`none`/`false` means the call fails. `deleteVM` failing only produces a
warning log in the code, so it appears here for completeness but cannot
influence the verdict. -/
structure ApiOutcome : Type where
  createVM : Option (List VMInst)
  waitVMReady : Option String
  getVMDetails : Option VMView
  provision : Option Unit
  createSnapshot : Option Snapshot
  waitSnapshotReady : Bool
  createImage : Option Image
  deleteVM : Bool

/-- One external call of the build flow, with the arguments `main` passes
to it. -/
inductive ApiCall : Type
  | createVM (name : String) (labels : List String)
  | waitVMReady (vmId : Int)
  | getVMDetails (vmId : Int)
  | provisionVM (ip : String) (keyPath : String)
  | createSnapshot (vmId : Int) (name : String)
  | waitSnapshotReady (snapId : Int)
  | createImage (snapId : Int) (name : String) (labels : List String)
  | deleteVM (vmId : Int)
  deriving Repr, DecidableEq

/-- The six fixed platform-descriptor labels appended to the image's
label list (main.go:272-279). -/
def k8sLabels : List String :=
  ["kubernetes.io/os=linux", "kubernetes.io/arch=amd64", "nvidia.com/gpu=true",
   "nvidia.com/cuda=true", "container.runtime=docker", "image.type=kubernetes-node"]

/-- The image label list (main.go:269-279): a fresh copy of the config's
tags followed by the six fixed labels; the copy (`append([]string{},
cfg.Tags...)` in Go) never writes into the config's own slice. -/
def mkImageLabels (tags : List String) : List String :=
  ([] ++ tags) ++ k8sLabels

/-- The build flow of `main` from VM creation onward (main.go:212-296),
over an `ApiOutcome` oracle. `now1` is the epoch-seconds timestamp taken
for the instance name (main.go:214) and `now2` the fresh one taken for
the snapshot name (main.go:251). Each `log.Fatalf` is modelled as
returning the calls made so far with a failed verdict; the result is the
ordered list of external calls attempted and the process verdict. -/
def runBuild (api : ApiOutcome) (cfg : Config) (now1 now2 : Int) :
    List ApiCall × Bool :=
  let originalVMName := cfg.VMName
  let instName := originalVMName ++ "-" ++ toString now1
  let cfg1 : Config := { cfg with VMName := instName }
  match api.createVM with
  | none => ([ApiCall.createVM instName cfg1.Tags], false)
  | some instances =>
    let cfg2 : Config := { cfg1 with VMName := originalVMName }
    match instances with
    | [] => ([ApiCall.createVM instName cfg1.Tags], false)
    | vm :: _ =>
      let t0 := [ApiCall.createVM instName cfg1.Tags]
      match api.waitVMReady with
      | none => (t0 ++ [ApiCall.waitVMReady vm.id], false)
      | some vmIP =>
        let t1 := t0 ++ [ApiCall.waitVMReady vm.id]
        match api.getVMDetails with
        | none => (t1 ++ [ApiCall.getVMDetails vm.id], false)
        | some _details =>
          let t2 := t1 ++ [ApiCall.getVMDetails vm.id]
          match api.provision with
          | none => (t2 ++ [ApiCall.provisionVM vmIP cfg2.PrivateKeyPath], false)
          | some _ =>
            let t3 := t2 ++ [ApiCall.provisionVM vmIP cfg2.PrivateKeyPath]
            let snapshotName := cfg2.VMName ++ "-snapshot-" ++ toString now2
            match api.createSnapshot with
            | none => (t3 ++ [ApiCall.createSnapshot vm.id snapshotName], false)
            | some snap =>
              let t4 := t3 ++ [ApiCall.createSnapshot vm.id snapshotName]
              match api.waitSnapshotReady with
              | false => (t4 ++ [ApiCall.waitSnapshotReady snap.id], false)
              | true =>
                let t5 := t4 ++ [ApiCall.waitSnapshotReady snap.id]
                let imageName := cfg2.ImageName ++ "_" ++ cfg2.ImageVersion
                let imageLabels := mkImageLabels cfg2.Tags
                match api.createImage with
                | none => (t5 ++ [ApiCall.createImage snap.id imageName imageLabels], false)
                | some _img =>
                  let t6 := t5 ++ [ApiCall.createImage snap.id imageName imageLabels]
                  (t6 ++ [ApiCall.deleteVM vm.id], true)

/-- Whether every stage up to and including image creation succeeds
(instance creation must also return a non-empty instance list,
main.go:225). -/
def buildSucceeds (api : ApiOutcome) : Bool :=
  (match api.createVM with
   | some (_ :: _) => true
   | _ => false)
  && api.waitVMReady.isSome && api.getVMDetails.isSome && api.provision.isSome
  && api.createSnapshot.isSome && api.waitSnapshotReady && api.createImage.isSome

/-- Number of instance-deletion attempts in a call trace. -/
def countDeleteVM (calls : List ApiCall) : Nat :=
  calls.countP (fun c => match c with | ApiCall.deleteVM _ => true | _ => false)

/-! ## Claims about the Remote Session (C9) -/

/-- C9: for a Remote Session whose connection was never successfully
established (`c.client == nil` in the Go code, `connected = false` here),
every operation is safe: `Close` is a no-op returning nil, and
`ExecuteCommand` and `CopyFile` return the `SSH connection not
established` error instead of dereferencing the absent connection. -/
theorem never_connected_session_ops_safe (c : SshClient) (env : SshEnv)
    (cmd localPath remotePath : String) (h : c.connected = false) :
    sshClose c env = none
      ∧ executeCommandRes c env cmd = some (GoErr.msg "SSH connection not established")
      ∧ copyFileRes c env localPath remotePath
          = some (GoErr.msg "SSH connection not established") := by
  refine ⟨?_, ?_, ?_⟩ <;> simp [sshClose, executeCommandRes, copyFileRes, h]

/-- A trivial sample environment for witnesses. -/
def envNoFail : SshEnv where
  stat := fun _ => StatRes.ok
  openLocal := fun _ => none
  run := fun _ => none
  closeResult := none

/-- Witness for `never_connected_session_ops_safe` at a concrete
never-connected client. -/
theorem never_connected_session_ops_safe_witness :
    sshClose ⟨false⟩ envNoFail = none
      ∧ executeCommandRes ⟨false⟩ envNoFail "ls"
          = some (GoErr.msg "SSH connection not established")
      ∧ copyFileRes ⟨false⟩ envNoFail "a.sh" "/tmp/a.sh"
          = some (GoErr.msg "SSH connection not established") :=
  never_connected_session_ops_safe ⟨false⟩ envNoFail "ls" "a.sh" "/tmp/a.sh" rfl

/-! ## Claims about the readiness predicate and poll loops (C3, C6) -/

/-- C3: on a poll whose response parses to instance view `vm`, the
instance-readiness poll succeeds on that poll if and only if the status
is `ACTIVE`, the floating address is non-empty, and the attachment state
is `ATTACHED`; when any of the three conditions fails, the loop continues
with the next poll instead of succeeding. -/
theorem vm_readiness_succeeds_iff_triple (polls : PollSeq VMView) (fuel i : Nat)
    (r : ApiResp VMView) (vm : VMView)
    (hp : polls i = Except.ok r) (hr : parseAPIResponse r = Except.ok vm) :
    (vmReady vm = true ↔
        (vm.status = "ACTIVE" ∧ vm.floatingIP ≠ "" ∧ vm.floatingIPStatus = "ATTACHED"))
      ∧ (vmReady vm = true →
          waitForVMReadyAux polls (fuel + 1) i = Except.ok vm.floatingIP)
      ∧ (vmReady vm = false →
          waitForVMReadyAux polls (fuel + 1) i = waitForVMReadyAux polls fuel (i + 1)) := by
  refine ⟨?_, ?_, ?_⟩
  · simp [vmReady, and_assoc]
  · intro h
    simp [waitForVMReadyAux, hp, hr, h]
  · intro h
    simp [waitForVMReadyAux, hp, hr, h]

/-- A ready instance view. -/
def vmViewReady : VMView :=
  { status := "ACTIVE", floatingIP := "1.2.3.4", floatingIPStatus := "ATTACHED" }

/-- An instance view still booting (floating IP not yet attached). -/
def vmViewBooting : VMView :=
  { status := "ACTIVE", floatingIP := "1.2.3.4", floatingIPStatus := "ATTACHING" }

/-- A successful instance-detail response carrying `vmViewReady`. -/
def respVMReady : ApiResp VMView :=
  { statusCode := 200, rawBody := "instance detail", envelope := some (true, "ok"),
    payload := some vmViewReady }

/-- A successful instance-detail response carrying `vmViewBooting`. -/
def respVMBooting : ApiResp VMView :=
  { statusCode := 200, rawBody := "instance detail", envelope := some (true, "ok"),
    payload := some vmViewBooting }

/-- Witness for `vm_readiness_succeeds_iff_triple` at a concrete poll. -/
theorem vm_readiness_succeeds_iff_triple_witness :
    (vmReady vmViewReady = true ↔
        (vmViewReady.status = "ACTIVE" ∧ vmViewReady.floatingIP ≠ ""
          ∧ vmViewReady.floatingIPStatus = "ATTACHED"))
      ∧ (vmReady vmViewReady = true →
          waitForVMReadyAux (fun _ => Except.ok respVMReady) 1 0
            = Except.ok vmViewReady.floatingIP)
      ∧ (vmReady vmViewReady = false →
          waitForVMReadyAux (fun _ => Except.ok respVMReady) 1 0
            = waitForVMReadyAux (fun _ => Except.ok respVMReady) 0 1) :=
  vm_readiness_succeeds_iff_triple (fun _ => Except.ok respVMReady) 0 0
    respVMReady vmViewReady rfl rfl

/-! ## Claims about the wire contract (C2) -/

/-- A sample decoded snapshot whose provider status is still pending. -/
def snapPending : Snapshot := { id := 7, name := "vm1-snapshot-200", status := "CREATING" }

/-- A snapshot-creation response that succeeds at the HTTP level but whose
envelope carries a false success flag. -/
def respSnapFalseFlag : ApiResp Snapshot :=
  { statusCode := 200, rawBody := "status false, message quota exceeded",
    envelope := some (false, "quota exceeded"), payload := some snapPending }

/-- C2 counterexample: `CreateSnapshot` never consults the response
envelope's success flag — on an HTTP 200 response whose envelope carries
`status: false`, it still returns the decoded snapshot instead of an
error, so the claim that every Resource Lifecycle Client call treats a
false flag as an error is violated. -/
theorem create_snapshot_accepts_false_status_flag :
    respSnapFalseFlag.statusCode = 200
      ∧ respSnapFalseFlag.envelope = some (false, "quota exceeded")
      ∧ createSnapshotHandle respSnapFalseFlag = Except.ok snapPending := by
  refine ⟨rfl, rfl, ?_⟩
  rfl

/-- C2 amended: calls routed through the shared `parseAPIResponse`
(create instance, instance polling and details, image creation, catalog
reads) treat a false envelope flag as an error even on an HTTP 200/201
response, and treat any other HTTP status as an error carrying the raw
response body. `CreateSnapshot` and `DeleteVM` treat an HTTP failure
status as an error carrying the raw body but never consult the envelope
flag (a decodable payload is returned as success regardless of the flag),
and the snapshot-readiness poll consults neither the HTTP status nor the
flag: it only decodes the payload. -/
theorem api_envelope_handling_amended {α : Type} (r : ApiResp α)
    (rs : ApiResp Snapshot) (rd : ApiResp Unit) (m : String) (s : Snapshot) :
    ((r.statusCode = 200 ∨ r.statusCode = 201) → r.envelope = some (false, m) →
        parseAPIResponse r = Except.error ("API returned error: " ++ m))
      ∧ (¬(r.statusCode = 200 ∨ r.statusCode = 201) →
        parseAPIResponse r = Except.error ("API request failed: status "
          ++ toString r.statusCode ++ ", body: " ++ r.rawBody))
      ∧ (¬(rs.statusCode = 200 ∨ rs.statusCode = 201) →
        createSnapshotHandle rs = Except.error ("failed to create snapshot: status "
          ++ toString rs.statusCode ++ ", body: " ++ rs.rawBody))
      ∧ ((rs.statusCode = 200 ∨ rs.statusCode = 201) → rs.payload = some s →
        createSnapshotHandle rs = Except.ok s)
      ∧ (¬(rd.statusCode = 204 ∨ rd.statusCode = 200) →
        deleteVMHandle rd = Except.error ("failed to delete VM: status "
          ++ toString rd.statusCode ++ ", body: " ++ rd.rawBody))
      ∧ (rs.payload = some s → snapshotPollStep rs = Except.ok s) := by
  refine ⟨?_, ?_, ?_, ?_, ?_, ?_⟩
  · intro hst henv
    simp [parseAPIResponse, hst, henv]
  · intro hst
    simp [parseAPIResponse, hst]
  · intro hst
    simp [createSnapshotHandle, hst]
  · intro hst hp
    simp [createSnapshotHandle, hst, hp]
  · intro hst
    simp [deleteVMHandle, hst]
  · intro hp
    simp [snapshotPollStep, hp]

/-- A response with an HTTP failure status. -/
def respServerErr : ApiResp VMView :=
  { statusCode := 500, rawBody := "internal error", envelope := none, payload := none }

/-- A snapshot-creation response with an HTTP failure status. -/
def respSnapServerErr : ApiResp Snapshot :=
  { statusCode := 500, rawBody := "internal error", envelope := none, payload := none }

/-- A deletion response with an HTTP failure status. -/
def respDeleteConflict : ApiResp Unit :=
  { statusCode := 409, rawBody := "conflict", envelope := some (false, "in use"), payload := none }

/-- A VM-detail response with HTTP 200 and a false envelope flag. -/
def respVMFalseFlag : ApiResp VMView :=
  { statusCode := 200, rawBody := "denied", envelope := some (false, "denied"),
    payload := some vmViewReady }

/-- Witness for `api_envelope_handling_amended` at concrete responses. -/
theorem api_envelope_handling_amended_witness :
    parseAPIResponse respVMFalseFlag = Except.error ("API returned error: " ++ "denied")
      ∧ parseAPIResponse respServerErr = Except.error ("API request failed: status "
          ++ toString respServerErr.statusCode ++ ", body: " ++ respServerErr.rawBody)
      ∧ createSnapshotHandle respSnapServerErr
          = Except.error ("failed to create snapshot: status "
              ++ toString respSnapServerErr.statusCode ++ ", body: " ++ respSnapServerErr.rawBody)
      ∧ createSnapshotHandle respSnapFalseFlag = Except.ok snapPending
      ∧ deleteVMHandle respDeleteConflict = Except.error ("failed to delete VM: status "
          ++ toString respDeleteConflict.statusCode ++ ", body: " ++ respDeleteConflict.rawBody)
      ∧ snapshotPollStep respSnapFalseFlag = Except.ok snapPending :=
  ⟨(api_envelope_handling_amended respVMFalseFlag respSnapFalseFlag respDeleteConflict
      "denied" snapPending).1 (Or.inl rfl) rfl,
   (api_envelope_handling_amended respServerErr respSnapFalseFlag respDeleteConflict
      "denied" snapPending).2.1 (by decide),
   (api_envelope_handling_amended respServerErr respSnapServerErr respDeleteConflict
      "denied" snapPending).2.2.1 (by decide),
   (api_envelope_handling_amended respServerErr respSnapFalseFlag respDeleteConflict
      "denied" snapPending).2.2.2.1 (Or.inl rfl) rfl,
   (api_envelope_handling_amended respServerErr respSnapFalseFlag respDeleteConflict
      "denied" snapPending).2.2.2.2.1 (by decide),
   (api_envelope_handling_amended respServerErr respSnapFalseFlag respDeleteConflict
      "denied" snapPending).2.2.2.2.2 rfl⟩

/-! ## Claims about the build orchestration (C1, C7, C8) -/

/-- A sample build configuration. -/
def cfgSample : Config :=
  { ImageName := "kubernetes_gpu_cuda", ImageVersion := "202508.01.0", VMName := "vm1",
    PrivateKeyPath := "/root/.ssh/id_rsa", Tags := ["k8s", "gpu"] }

/-- A sample created instance. -/
def vmInstSample : VMInst := { id := 42, name := "vm1-100" }

/-- Call outcomes for a build in which the instance is created and
becomes ready, but provisioning then fails. -/
def apiProvisionFails : ApiOutcome :=
  { createVM := some [vmInstSample], waitVMReady := some "1.2.3.4",
    getVMDetails := some vmViewReady, provision := none, createSnapshot := none,
    waitSnapshotReady := false, createImage := none, deleteVM := true }

/-- C1 counterexample: in a build whose create-instance call returned a
handle but whose provisioning failed, the orchestrator terminates (via
`log.Fatalf`) without ever attempting instance deletion — zero deletion
attempts, not exactly one — so deletion is not attempted regardless of
downstream failures. -/
theorem delete_skipped_when_provisioning_fails :
    apiProvisionFails.createVM = some [vmInstSample]
      ∧ countDeleteVM (runBuild apiProvisionFails cfgSample 100 200).1 = 0
      ∧ (runBuild apiProvisionFails cfgSample 100 200).2 = false := by
  refine ⟨rfl, ?_, rfl⟩
  rfl

/-- C1 amended: instance deletion is attempted exactly once on builds in
which every stage through image creation succeeds, and never on builds
that fail at any earlier stage (each failure terminates the process
immediately); when deletion is attempted its own failure does not change
the build's success verdict, which equals `buildSucceeds` regardless of
the `deleteVM` outcome. -/
theorem delete_attempted_iff_build_succeeds (api : ApiOutcome) (cfg : Config)
    (now1 now2 : Int) :
    (runBuild api cfg now1 now2).2 = buildSucceeds api
      ∧ countDeleteVM (runBuild api cfg now1 now2).1
          = (if buildSucceeds api then 1 else 0) := by
  obtain ⟨cv, wv, gd, pv, cs, ws, ci, dv⟩ := api
  cases cv with
  | none => simp [runBuild, buildSucceeds, countDeleteVM]
  | some l =>
    cases l with
    | nil => simp [runBuild, buildSucceeds, countDeleteVM]
    | cons vm rest =>
      cases wv <;> cases gd <;> cases pv <;> cases cs <;> cases ws <;> cases ci <;>
        simp [runBuild, buildSucceeds, countDeleteVM]

/-- C7: the instance name sent to the creation call is the human-chosen
VM name with a `-` and the build-start epoch seconds appended, while the
snapshot name is the original human-chosen name plus `-snapshot-` and a
fresh epoch-seconds value, and the image name is the configured image
name plus `_` and the version — neither derived from the timestamped
instance name. -/
theorem build_naming_policy (api : ApiOutcome) (cfg : Config) (now1 now2 : Int)
    (vm : VMInst) (rest : List VMInst) (ip : String) (d : VMView) (snap : Snapshot)
    (h1 : api.createVM = some (vm :: rest)) (h2 : api.waitVMReady = some ip)
    (h3 : api.getVMDetails = some d) (h4 : api.provision = some ())
    (h5 : api.createSnapshot = some snap) (h6 : api.waitSnapshotReady = true) :
    ApiCall.createVM (cfg.VMName ++ "-" ++ toString now1) cfg.Tags
        ∈ (runBuild api cfg now1 now2).1
      ∧ ApiCall.createSnapshot vm.id (cfg.VMName ++ "-snapshot-" ++ toString now2)
          ∈ (runBuild api cfg now1 now2).1
      ∧ ApiCall.createImage snap.id (cfg.ImageName ++ "_" ++ cfg.ImageVersion)
            (mkImageLabels cfg.Tags)
          ∈ (runBuild api cfg now1 now2).1 := by
  cases hci : api.createImage <;>
    simp [runBuild, h1, h2, h3, h4, h5, h6, hci]

/-- Call outcomes for a fully successful build. -/
def apiAllOk : ApiOutcome :=
  { createVM := some [vmInstSample], waitVMReady := some "1.2.3.4",
    getVMDetails := some vmViewReady, provision := some (),
    createSnapshot := some snapPending, waitSnapshotReady := true,
    createImage := some { id := 9, name := "kubernetes_gpu_cuda_202508.01.0" },
    deleteVM := true }

/-- Witness for `build_naming_policy` on a fully successful build. -/
theorem build_naming_policy_witness :
    ApiCall.createVM (cfgSample.VMName ++ "-" ++ toString (100 : Int)) cfgSample.Tags
        ∈ (runBuild apiAllOk cfgSample 100 200).1
      ∧ ApiCall.createSnapshot vmInstSample.id
            (cfgSample.VMName ++ "-snapshot-" ++ toString (200 : Int))
          ∈ (runBuild apiAllOk cfgSample 100 200).1
      ∧ ApiCall.createImage snapPending.id
            (cfgSample.ImageName ++ "_" ++ cfgSample.ImageVersion)
            (mkImageLabels cfgSample.Tags)
          ∈ (runBuild apiAllOk cfgSample 100 200).1 :=
  build_naming_policy apiAllOk cfgSample 100 200 vmInstSample [] "1.2.3.4"
    vmViewReady snapPending rfl rfl rfl rfl rfl rfl

/-- C8: the label list passed to the image-creation call is exactly the
BuildSpec's tags followed by the six fixed platform-descriptor labels,
and its construction (a Go append onto a fresh empty slice, modelled as a
pure list append) leaves the config's own tag list unchanged: the list
passed is `cfg.Tags ++ k8sLabels` with `cfg.Tags` itself unmodified. -/
theorem image_labels_policy (api : ApiOutcome) (cfg : Config) (now1 now2 : Int)
    (vm : VMInst) (rest : List VMInst) (ip : String) (d : VMView) (snap : Snapshot)
    (h1 : api.createVM = some (vm :: rest)) (h2 : api.waitVMReady = some ip)
    (h3 : api.getVMDetails = some d) (h4 : api.provision = some ())
    (h5 : api.createSnapshot = some snap) (h6 : api.waitSnapshotReady = true) :
    ApiCall.createImage snap.id (cfg.ImageName ++ "_" ++ cfg.ImageVersion)
        (cfg.Tags ++ ["kubernetes.io/os=linux", "kubernetes.io/arch=amd64",
          "nvidia.com/gpu=true", "nvidia.com/cuda=true", "container.runtime=docker",
          "image.type=kubernetes-node"])
        ∈ (runBuild api cfg now1 now2).1
      ∧ mkImageLabels cfg.Tags = cfg.Tags ++ k8sLabels := by
  constructor
  · cases hci : api.createImage <;>
      simp [runBuild, h1, h2, h3, h4, h5, h6, hci, mkImageLabels, k8sLabels]
  · simp [mkImageLabels]

/-- Witness for `image_labels_policy` on a fully successful build. -/
theorem image_labels_policy_witness :
    ApiCall.createImage snapPending.id
        (cfgSample.ImageName ++ "_" ++ cfgSample.ImageVersion)
        (cfgSample.Tags ++ ["kubernetes.io/os=linux", "kubernetes.io/arch=amd64",
          "nvidia.com/gpu=true", "nvidia.com/cuda=true", "container.runtime=docker",
          "image.type=kubernetes-node"])
        ∈ (runBuild apiAllOk cfgSample 100 200).1
      ∧ mkImageLabels cfgSample.Tags = cfgSample.Tags ++ k8sLabels :=
  image_labels_policy apiAllOk cfgSample 100 200 vmInstSample [] "1.2.3.4"
    vmViewReady snapPending rfl rfl rfl rfl rfl rfl

/-! ## Poll-loop termination (C6) -/

/-- Poll `k` of the instance loop parses successfully but the readiness
predicate fails there. -/
def vmPollNotReady (polls : PollSeq VMView) (k : Nat) : Prop :=
  ∃ r vm, polls k = Except.ok r ∧ parseAPIResponse r = Except.ok vm ∧ vmReady vm = false

/-- Poll `k` of the instance loop parses successfully, the readiness
predicate holds, and the floating IP is `ip`. -/
def vmPollReadyWith (polls : PollSeq VMView) (k : Nat) (ip : String) : Prop :=
  ∃ r vm, polls k = Except.ok r ∧ parseAPIResponse r = Except.ok vm
    ∧ vmReady vm = true ∧ vm.floatingIP = ip

/-- Poll `k` of the snapshot loop decodes successfully but the snapshot
is not yet in `SUCCESS` state. -/
def snapPollNotReady (polls : PollSeq Snapshot) (k : Nat) : Prop :=
  ∃ r s, polls k = Except.ok r ∧ snapshotPollStep r = Except.ok s
    ∧ (s.status == "SUCCESS") = false

/-- Poll `k` of the snapshot loop decodes successfully and the snapshot
is in `SUCCESS` state. -/
def snapPollSuccess (polls : PollSeq Snapshot) (k : Nat) : Prop :=
  ∃ r s, polls k = Except.ok r ∧ snapshotPollStep r = Except.ok s ∧ s.status = "SUCCESS"

theorem waitForVMReadyAux_timeout (polls : PollSeq VMView) :
    ∀ fuel start, (∀ k, k < fuel → vmPollNotReady polls (start + k)) →
      waitForVMReadyAux polls fuel start
        = Except.error "VM did not become ready with floating IP within timeout" := by
  intro fuel
  induction fuel with
  | zero => intro start _; rfl
  | succ n ih =>
    intro start h
    obtain ⟨r, vm, hp, hr, hnr⟩ := h 0 (Nat.succ_pos n)
    rw [Nat.add_zero] at hp
    have hrest : ∀ k, k < n → vmPollNotReady polls (start + 1 + k) := by
      intro k hk
      have := h (k + 1) (Nat.succ_lt_succ hk)
      rwa [show start + (k + 1) = start + 1 + k by omega] at this
    simp [waitForVMReadyAux, hp, hr, hnr, ih (start + 1) hrest]

theorem waitForVMReadyAux_first_success (polls : PollSeq VMView) (ip : String) :
    ∀ j fuel start, j < fuel → (∀ k, k < j → vmPollNotReady polls (start + k)) →
      vmPollReadyWith polls (start + j) ip →
      waitForVMReadyAux polls fuel start = Except.ok ip := by
  intro j
  induction j with
  | zero =>
    intro fuel start hj _ hready
    obtain ⟨r, vm, hp, hr, hok, hip⟩ := hready
    rw [Nat.add_zero] at hp
    obtain ⟨n, rfl⟩ := Nat.exists_eq_succ_of_ne_zero (Nat.pos_iff_ne_zero.mp hj)
    simp [waitForVMReadyAux, hp, hr, hok, hip]
  | succ m ih =>
    intro fuel start hj hpre hready
    obtain ⟨n, rfl⟩ := Nat.exists_eq_succ_of_ne_zero
      (Nat.pos_iff_ne_zero.mp (Nat.lt_of_le_of_lt (Nat.zero_le _) hj))
    obtain ⟨r, vm, hp, hr, hnr⟩ := hpre 0 (Nat.succ_pos m)
    rw [Nat.add_zero] at hp
    have hpre' : ∀ k, k < m → vmPollNotReady polls (start + 1 + k) := by
      intro k hk
      have := hpre (k + 1) (Nat.succ_lt_succ hk)
      rwa [show start + (k + 1) = start + 1 + k by omega] at this
    have hready' : vmPollReadyWith polls (start + 1 + m) ip := by
      rwa [show start + (m + 1) = start + 1 + m by omega] at hready
    have hfuel : m < n := Nat.lt_of_succ_lt_succ hj
    simp [waitForVMReadyAux, hp, hr, hnr, ih n (start + 1) hfuel hpre' hready']

theorem waitForSnapshotReadyAux_timeout (polls : PollSeq Snapshot) :
    ∀ fuel start, (∀ k, k < fuel → snapPollNotReady polls (start + k)) →
      waitForSnapshotReadyAux polls fuel start
        = Except.error "snapshot did not become ready within timeout" := by
  intro fuel
  induction fuel with
  | zero => intro start _; rfl
  | succ n ih =>
    intro start h
    obtain ⟨r, s, hp, hr, hnr⟩ := h 0 (Nat.succ_pos n)
    rw [Nat.add_zero] at hp
    have hrest : ∀ k, k < n → snapPollNotReady polls (start + 1 + k) := by
      intro k hk
      have := h (k + 1) (Nat.succ_lt_succ hk)
      rwa [show start + (k + 1) = start + 1 + k by omega] at this
    simp [waitForSnapshotReadyAux, hp, hr, hnr, ih (start + 1) hrest]

theorem waitForSnapshotReadyAux_first_success (polls : PollSeq Snapshot) :
    ∀ j fuel start, j < fuel → (∀ k, k < j → snapPollNotReady polls (start + k)) →
      snapPollSuccess polls (start + j) →
      waitForSnapshotReadyAux polls fuel start = Except.ok () := by
  intro j
  induction j with
  | zero =>
    intro fuel start hj _ hready
    obtain ⟨r, s, hp, hr, hst⟩ := hready
    rw [Nat.add_zero] at hp
    obtain ⟨n, rfl⟩ := Nat.exists_eq_succ_of_ne_zero (Nat.pos_iff_ne_zero.mp hj)
    simp [waitForSnapshotReadyAux, hp, hr, hst]
  | succ m ih =>
    intro fuel start hj hpre hready
    obtain ⟨n, rfl⟩ := Nat.exists_eq_succ_of_ne_zero
      (Nat.pos_iff_ne_zero.mp (Nat.lt_of_le_of_lt (Nat.zero_le _) hj))
    obtain ⟨r, s, hp, hr, hnr⟩ := hpre 0 (Nat.succ_pos m)
    rw [Nat.add_zero] at hp
    have hpre' : ∀ k, k < m → snapPollNotReady polls (start + 1 + k) := by
      intro k hk
      have := hpre (k + 1) (Nat.succ_lt_succ hk)
      rwa [show start + (k + 1) = start + 1 + k by omega] at this
    have hready' : snapPollSuccess polls (start + 1 + m) := by
      rwa [show start + (m + 1) = start + 1 + m by omega] at hready
    have hfuel : m < n := Nat.lt_of_succ_lt_succ hj
    simp [waitForSnapshotReadyAux, hp, hr, hnr, ih n (start + 1) hfuel hpre' hready']

/-- C6: the instance-readiness loop returns its timeout error after
exactly its cap of 60 polls when no poll satisfies the readiness
predicate, and the snapshot-readiness loop does the same after exactly
120 polls when no poll reaches `SUCCESS`; each loop instead returns
success at the first poll on which its predicate holds. -/
theorem poll_loops_cap_and_first_success (pv : PollSeq VMView) (ps : PollSeq Snapshot)
    (jv js : Nat) (ip : String) :
    ((∀ k, k < 60 → vmPollNotReady pv k) →
        waitForVMReady pv
          = Except.error "VM did not become ready with floating IP within timeout")
      ∧ (jv < 60 → (∀ k, k < jv → vmPollNotReady pv k) → vmPollReadyWith pv jv ip →
        waitForVMReady pv = Except.ok ip)
      ∧ ((∀ k, k < 120 → snapPollNotReady ps k) →
        waitForSnapshotReady ps
          = Except.error "snapshot did not become ready within timeout")
      ∧ (js < 120 → (∀ k, k < js → snapPollNotReady ps k) → snapPollSuccess ps js →
        waitForSnapshotReady ps = Except.ok ()) := by
  refine ⟨?_, ?_, ?_, ?_⟩
  · intro h
    exact waitForVMReadyAux_timeout pv 60 0 (by simpa using h)
  · intro hj hpre hready
    exact waitForVMReadyAux_first_success pv ip jv 60 0 hj (by simpa using hpre)
      (by simpa using hready)
  · intro h
    exact waitForSnapshotReadyAux_timeout ps 120 0 (by simpa using h)
  · intro hj hpre hready
    exact waitForSnapshotReadyAux_first_success ps js 120 0 hj (by simpa using hpre)
      (by simpa using hready)

/-- A snapshot-detail poll response whose snapshot is still pending. -/
def respSnapPendingPoll : ApiResp Snapshot :=
  { statusCode := 200, rawBody := "snapshot detail", envelope := some (true, "ok"),
    payload := some snapPending }

/-- A snapshot-detail poll response whose snapshot has finalized. -/
def respSnapDonePoll : ApiResp Snapshot :=
  { statusCode := 200, rawBody := "snapshot detail", envelope := some (true, "ok"),
    payload := some { id := 7, name := "vm1-snapshot-200", status := "SUCCESS" } }

/-- Instance polls that never become ready. -/
def pvNever : PollSeq VMView := fun _ => Except.ok respVMBooting

/-- Instance polls that become ready at poll 3. -/
def pvReadyAt3 : PollSeq VMView := fun k =>
  if k < 3 then Except.ok respVMBooting else Except.ok respVMReady

/-- Snapshot polls that never reach `SUCCESS`. -/
def psNever : PollSeq Snapshot := fun _ => Except.ok respSnapPendingPoll

/-- Snapshot polls that reach `SUCCESS` at poll 5. -/
def psReadyAt5 : PollSeq Snapshot := fun k =>
  if k < 5 then Except.ok respSnapPendingPoll else Except.ok respSnapDonePoll

/-- Witness for `poll_loops_cap_and_first_success` at concrete poll
sequences. -/
theorem poll_loops_cap_and_first_success_witness :
    waitForVMReady pvNever
        = Except.error "VM did not become ready with floating IP within timeout"
      ∧ waitForVMReady pvReadyAt3 = Except.ok "1.2.3.4"
      ∧ waitForSnapshotReady psNever
          = Except.error "snapshot did not become ready within timeout"
      ∧ waitForSnapshotReady psReadyAt5 = Except.ok () :=
  ⟨(poll_loops_cap_and_first_success pvNever psNever 0 0 "").1
      (fun _ _ => ⟨respVMBooting, vmViewBooting, rfl, rfl, rfl⟩),
   (poll_loops_cap_and_first_success pvReadyAt3 psNever 3 0 "1.2.3.4").2.1
      (by norm_num)
      (fun k hk => ⟨respVMBooting, vmViewBooting, by simp [pvReadyAt3, hk], rfl, rfl⟩)
      ⟨respVMReady, vmViewReady, by norm_num [pvReadyAt3], rfl, rfl, rfl⟩,
   (poll_loops_cap_and_first_success pvNever psNever 0 0 "").2.2.1
      (fun _ _ => ⟨respSnapPendingPoll, snapPending, rfl, rfl, rfl⟩),
   (poll_loops_cap_and_first_success pvNever psReadyAt5 0 5 "").2.2.2
      (by norm_num)
      (fun k hk => ⟨respSnapPendingPoll, snapPending, by simp [psReadyAt5, hk], rfl, rfl⟩)
      ⟨respSnapDonePoll, { id := 7, name := "vm1-snapshot-200", status := "SUCCESS" },
        by norm_num [psReadyAt5], rfl, rfl⟩⟩

/-! ## Pipeline ordering and fail-fast lemmas (towards C4, C5, C10) -/

/-- The client operations a list of fully successful steps performs, in
declared order. -/
def stepsOps (sd fd rd : String) : List Step → List ScpOp
  | [] => []
  | st :: rest => stepOps sd fd rd st ++ stepsOps sd fd rd rest

/-- The local source path a step's pre-check stats. -/
def localPathOf (sd fd : String) : Step → String
  | Step.script s => joinPath sd s
  | Step.file d => joinPath fd d.LocalPath

/-- The pre-network validation error reported when a step's local source
is missing. -/
def notFoundErr (sd fd : String) : Step → GoErr
  | Step.script s => GoErr.msg ("local script not found: " ++ joinPath sd s)
  | Step.file d => GoErr.msg ("local file not found: " ++ joinPath fd d.LocalPath)

/-- The error wrapper a failing `CopyFile` receives for a step. -/
def copyFailErr : Step → GoErr → GoErr
  | Step.script s, inner => GoErr.wrap ("failed to copy script " ++ s) inner
  | Step.file d, inner => GoErr.wrap ("failed to copy file " ++ d.LocalPath) inner

/-- The client operations invoked up to and including a step's copy
attempt (for a file step this includes the preceding privileged mkdir). -/
def copyAttemptOps (sd fd rd : String) : Step → List ScpOp
  | Step.script s => [ScpOp.copy (joinPath sd s) (joinPath rd s)]
  | Step.file d => [ScpOp.command ("sudo mkdir -p " ++ dirname d.RemotePath),
      ScpOp.copy (joinPath fd d.LocalPath) ("/tmp/" ++ basename d.LocalPath)]

theorem executeScriptT_ok (c : SshClient) (env : SshEnv) (p : String)
    (h : (executeScriptT c env p).2 = none) :
    executeScriptT c env p
      = ([ScpOp.command ("chmod +x " ++ p), ScpOp.command p], none) := by
  unfold executeScriptT at h ⊢
  cases h1 : executeCommandRes c env ("chmod +x " ++ p) with
  | some e => simp [h1] at h
  | none =>
    cases h2 : executeCommandRes c env p with
    | some e => simp [h1, h2] at h
    | none => simp [h1, h2]

theorem executeScriptsLoop_cons_ok (c : SshClient) (env : SshEnv) (sd fd rd : String)
    (s : String) (rest : List String) (h : scriptOk c env sd rd s = true) :
    executeScriptsLoop c env sd rd (s :: rest)
      = (stepOps sd fd rd (Step.script s) ++ (executeScriptsLoop c env sd rd rest).1,
         Step.script s :: (executeScriptsLoop c env sd rd rest).2.1,
         (executeScriptsLoop c env sd rd rest).2.2) := by
  simp only [scriptOk, Bool.and_eq_true, bne_iff_ne, beq_iff_eq] at h
  obtain ⟨⟨h1, h2⟩, h3⟩ := h
  simp [executeScriptsLoop, h1, h2, executeScriptT_ok c env _ h3, stepOps]

theorem executeScriptsLoop_prefix (c : SshClient) (env : SshEnv) (sd fd rd : String)
    (pre rest : List String) (h : ∀ s ∈ pre, scriptOk c env sd rd s = true) :
    executeScriptsLoop c env sd rd (pre ++ rest)
      = (stepsOps sd fd rd (pre.map Step.script) ++ (executeScriptsLoop c env sd rd rest).1,
         pre.map Step.script ++ (executeScriptsLoop c env sd rd rest).2.1,
         (executeScriptsLoop c env sd rd rest).2.2) := by
  induction pre with
  | nil => simp [stepsOps]
  | cons s pre ih =>
    have hs : scriptOk c env sd rd s = true := h s (List.mem_cons_self s pre)
    have hrest : ∀ x ∈ pre, scriptOk c env sd rd x = true :=
      fun x hx => h x (List.mem_cons_of_mem s hx)
    rw [List.cons_append, executeScriptsLoop_cons_ok c env sd fd rd s (pre ++ rest) hs,
        ih hrest]
    simp [stepsOps]

/-- How a scripted step can fail, together with the exact error it
reports and the client operations it invoked. -/
def scriptFailCase (c : SshClient) (env : SshEnv) (sd rd : String) (s : String)
    (e : GoErr) (bOps : List ScpOp) : Prop :=
  (env.stat (joinPath sd s) = StatRes.errNotExist
      ∧ e = GoErr.msg ("local script not found: " ++ joinPath sd s) ∧ bOps = [])
    ∨ (env.stat (joinPath sd s) ≠ StatRes.errNotExist
      ∧ (∃ ce, copyFileRes c env (joinPath sd s) (joinPath rd s) = some ce
          ∧ e = GoErr.wrap ("failed to copy script " ++ s) ce)
      ∧ bOps = [ScpOp.copy (joinPath sd s) (joinPath rd s)])
    ∨ (env.stat (joinPath sd s) ≠ StatRes.errNotExist
      ∧ copyFileRes c env (joinPath sd s) (joinPath rd s) = none
      ∧ (∃ ce, (executeScriptT c env (joinPath rd s)).2 = some ce
          ∧ e = GoErr.wrap ("failed to execute script " ++ s) ce)
      ∧ bOps = ScpOp.copy (joinPath sd s) (joinPath rd s)
          :: (executeScriptT c env (joinPath rd s)).1)

theorem executeScriptsLoop_head_fail (c : SshClient) (env : SshEnv) (sd rd : String)
    (s : String) (rest : List String) (h : scriptOk c env sd rd s = false) :
    ∃ e bOps, executeScriptsLoop c env sd rd (s :: rest) = (bOps, [Step.script s], some e)
      ∧ scriptFailCase c env sd rd s e bOps := by
  by_cases h1 : env.stat (joinPath sd s) = StatRes.errNotExist
  · refine ⟨GoErr.msg ("local script not found: " ++ joinPath sd s), [], ?_, ?_⟩
    · simp [executeScriptsLoop, h1]
    · exact Or.inl ⟨h1, rfl, rfl⟩
  · cases h2 : copyFileRes c env (joinPath sd s) (joinPath rd s) with
    | some ce =>
      refine ⟨GoErr.wrap ("failed to copy script " ++ s) ce,
        [ScpOp.copy (joinPath sd s) (joinPath rd s)], ?_, ?_⟩
      · simp [executeScriptsLoop, h1, h2]
      · exact Or.inr (Or.inl ⟨h1, ⟨ce, h2, rfl⟩, rfl⟩)
    | none =>
      cases h3 : (executeScriptT c env (joinPath rd s)).2 with
      | none =>
        exfalso
        have hok : scriptOk c env sd rd s = true := by
          simp [scriptOk, h1, h2, h3]
        rw [hok] at h
        simp at h
      | some ce =>
        refine ⟨GoErr.wrap ("failed to execute script " ++ s) ce,
          ScpOp.copy (joinPath sd s) (joinPath rd s)
            :: (executeScriptT c env (joinPath rd s)).1, ?_, ?_⟩
        · simp [executeScriptsLoop, h1, h2, h3]
        · exact Or.inr (Or.inr ⟨h1, h2, ⟨ce, h3, rfl⟩, rfl⟩)

theorem deployFilesLoop_cons_ok (c : SshClient) (env : SshEnv) (sd fd rd : String)
    (d : FileDeployment) (rest : List FileDeployment)
    (h : fileOk c env fd d = true) :
    deployFilesLoop c env fd (d :: rest)
      = (stepOps sd fd rd (Step.file d) ++ (deployFilesLoop c env fd rest).1,
         Step.file d :: (deployFilesLoop c env fd rest).2.1,
         (deployFilesLoop c env fd rest).2.2) := by
  simp only [fileOk, Bool.and_eq_true, bne_iff_ne, beq_iff_eq] at h
  obtain ⟨⟨⟨h1, h2⟩, h3⟩, h4⟩ := h
  simp [deployFilesLoop, h1, h2, h3, h4, stepOps]

theorem deployFilesLoop_prefix (c : SshClient) (env : SshEnv) (sd fd rd : String)
    (pre rest : List FileDeployment) (h : ∀ d ∈ pre, fileOk c env fd d = true) :
    deployFilesLoop c env fd (pre ++ rest)
      = (stepsOps sd fd rd (pre.map Step.file) ++ (deployFilesLoop c env fd rest).1,
         pre.map Step.file ++ (deployFilesLoop c env fd rest).2.1,
         (deployFilesLoop c env fd rest).2.2) := by
  induction pre with
  | nil => simp [stepsOps]
  | cons d pre ih =>
    have hd : fileOk c env fd d = true := h d (List.mem_cons_self d pre)
    have hrest : ∀ x ∈ pre, fileOk c env fd x = true :=
      fun x hx => h x (List.mem_cons_of_mem d hx)
    rw [List.cons_append, deployFilesLoop_cons_ok c env sd fd rd d (pre ++ rest) hd,
        ih hrest]
    simp [stepsOps]

/-- How a file-deployment step can fail, together with the exact error it
reports and the client operations it invoked. -/
def fileFailCase (c : SshClient) (env : SshEnv) (fd : String) (d : FileDeployment)
    (e : GoErr) (bOps : List ScpOp) : Prop :=
  (env.stat (joinPath fd d.LocalPath) = StatRes.errNotExist
      ∧ e = GoErr.msg ("local file not found: " ++ joinPath fd d.LocalPath) ∧ bOps = [])
    ∨ (env.stat (joinPath fd d.LocalPath) ≠ StatRes.errNotExist
      ∧ (∃ ce, executeCommandRes c env ("sudo mkdir -p " ++ dirname d.RemotePath) = some ce
          ∧ e = GoErr.wrap ("failed to create remote directory " ++ dirname d.RemotePath) ce)
      ∧ bOps = [ScpOp.command ("sudo mkdir -p " ++ dirname d.RemotePath)])
    ∨ (env.stat (joinPath fd d.LocalPath) ≠ StatRes.errNotExist
      ∧ executeCommandRes c env ("sudo mkdir -p " ++ dirname d.RemotePath) = none
      ∧ (∃ ce, copyFileRes c env (joinPath fd d.LocalPath)
            ("/tmp/" ++ basename d.LocalPath) = some ce
          ∧ e = GoErr.wrap ("failed to copy file " ++ d.LocalPath) ce)
      ∧ bOps = [ScpOp.command ("sudo mkdir -p " ++ dirname d.RemotePath),
          ScpOp.copy (joinPath fd d.LocalPath) ("/tmp/" ++ basename d.LocalPath)])
    ∨ (env.stat (joinPath fd d.LocalPath) ≠ StatRes.errNotExist
      ∧ executeCommandRes c env ("sudo mkdir -p " ++ dirname d.RemotePath) = none
      ∧ copyFileRes c env (joinPath fd d.LocalPath) ("/tmp/" ++ basename d.LocalPath) = none
      ∧ (∃ ce, executeCommandRes c env
            ("sudo mv " ++ ("/tmp/" ++ basename d.LocalPath) ++ " " ++ d.RemotePath) = some ce
          ∧ e = GoErr.wrap ("failed to move file to " ++ d.RemotePath) ce)
      ∧ bOps = [ScpOp.command ("sudo mkdir -p " ++ dirname d.RemotePath),
          ScpOp.copy (joinPath fd d.LocalPath) ("/tmp/" ++ basename d.LocalPath),
          ScpOp.command ("sudo mv " ++ ("/tmp/" ++ basename d.LocalPath) ++ " " ++ d.RemotePath)])

theorem deployFilesLoop_head_fail (c : SshClient) (env : SshEnv) (fd : String)
    (d : FileDeployment) (rest : List FileDeployment) (h : fileOk c env fd d = false) :
    ∃ e bOps, deployFilesLoop c env fd (d :: rest) = (bOps, [Step.file d], some e)
      ∧ fileFailCase c env fd d e bOps := by
  by_cases h1 : env.stat (joinPath fd d.LocalPath) = StatRes.errNotExist
  · refine ⟨GoErr.msg ("local file not found: " ++ joinPath fd d.LocalPath), [], ?_, ?_⟩
    · simp [deployFilesLoop, h1]
    · exact Or.inl ⟨h1, rfl, rfl⟩
  · cases h2 : executeCommandRes c env ("sudo mkdir -p " ++ dirname d.RemotePath) with
    | some ce =>
      refine ⟨GoErr.wrap ("failed to create remote directory " ++ dirname d.RemotePath) ce,
        [ScpOp.command ("sudo mkdir -p " ++ dirname d.RemotePath)], ?_, ?_⟩
      · simp [deployFilesLoop, h1, h2]
      · exact Or.inr (Or.inl ⟨h1, ⟨ce, h2, rfl⟩, rfl⟩)
    | none =>
      cases h3 : copyFileRes c env (joinPath fd d.LocalPath)
          ("/tmp/" ++ basename d.LocalPath) with
      | some ce =>
        refine ⟨GoErr.wrap ("failed to copy file " ++ d.LocalPath) ce,
          [ScpOp.command ("sudo mkdir -p " ++ dirname d.RemotePath),
            ScpOp.copy (joinPath fd d.LocalPath) ("/tmp/" ++ basename d.LocalPath)], ?_, ?_⟩
        · simp [deployFilesLoop, h1, h2, h3]
        · exact Or.inr (Or.inr (Or.inl ⟨h1, h2, ⟨ce, h3, rfl⟩, rfl⟩))
      | none =>
        cases h4 : executeCommandRes c env
            ("sudo mv " ++ ("/tmp/" ++ basename d.LocalPath) ++ " " ++ d.RemotePath) with
        | none =>
          exfalso
          have hok : fileOk c env fd d = true := by
            simp [fileOk, h1, h2, h3, h4]
          rw [hok] at h
          simp at h
        | some ce =>
          refine ⟨GoErr.wrap ("failed to move file to " ++ d.RemotePath) ce,
            [ScpOp.command ("sudo mkdir -p " ++ dirname d.RemotePath),
              ScpOp.copy (joinPath fd d.LocalPath) ("/tmp/" ++ basename d.LocalPath),
              ScpOp.command ("sudo mv " ++ ("/tmp/" ++ basename d.LocalPath)
                ++ " " ++ d.RemotePath)], ?_, ?_⟩
          · simp [deployFilesLoop, h1, h2, h3, h4]
          · exact Or.inr (Or.inr (Or.inr ⟨h1, h2, h3, ⟨ce, h4, rfl⟩, rfl⟩))

theorem stepsOps_append (sd fd rd : String) (l1 l2 : List Step) :
    stepsOps sd fd rd (l1 ++ l2) = stepsOps sd fd rd l1 ++ stepsOps sd fd rd l2 := by
  induction l1 with
  | nil => simp [stepsOps]
  | cons st l1 ih => simp [stepsOps, ih]

theorem executeScriptsLoop_all_ok (c : SshClient) (env : SshEnv) (sd fd rd : String)
    (scripts : List String) (h : ∀ s ∈ scripts, scriptOk c env sd rd s = true) :
    executeScriptsLoop c env sd rd scripts
      = (stepsOps sd fd rd (scripts.map Step.script), scripts.map Step.script, none) := by
  have hp := executeScriptsLoop_prefix c env sd fd rd scripts [] h
  simpa [executeScriptsLoop] using hp

theorem deployFilesLoop_all_ok (c : SshClient) (env : SshEnv) (sd fd rd : String)
    (deps : List FileDeployment) (h : ∀ d ∈ deps, fileOk c env fd d = true) :
    deployFilesLoop c env fd deps
      = (stepsOps sd fd rd (deps.map Step.file), deps.map Step.file, none) := by
  have hp := deployFilesLoop_prefix c env sd fd rd deps [] h
  simpa [deployFilesLoop] using hp

theorem scriptFailCase_errFor (c : SshClient) (env : SshEnv) (sd fd rd : String)
    (s : String) (e : GoErr) (bOps : List ScpOp)
    (h : scriptFailCase c env sd rd s e bOps) : stepErrFor sd fd (Step.script s) e := by
  unfold stepErrFor
  rcases h with ⟨_, he, _⟩ | ⟨_, ⟨ce, _, he⟩, _⟩ | ⟨_, _, ⟨ce, _, he⟩, _⟩
  · exact Or.inl he
  · exact Or.inr (Or.inl ⟨ce, he⟩)
  · exact Or.inr (Or.inr ⟨ce, he⟩)

theorem fileFailCase_errFor (c : SshClient) (env : SshEnv) (sd fd : String)
    (d : FileDeployment) (e : GoErr) (bOps : List ScpOp)
    (h : fileFailCase c env fd d e bOps) : stepErrFor sd fd (Step.file d) e := by
  unfold stepErrFor
  rcases h with ⟨_, he, _⟩ | ⟨_, ⟨ce, _, he⟩, _⟩ | ⟨_, _, ⟨ce, _, he⟩, _⟩
    | ⟨_, _, _, ⟨ce, _, he⟩, _⟩
  · exact Or.inl he
  · exact Or.inr (Or.inl ⟨ce, he⟩)
  · exact Or.inr (Or.inr (Or.inl ⟨ce, he⟩))
  · exact Or.inr (Or.inr (Or.inr ⟨ce, he⟩))

theorem map_script_decomp (scripts : List String) (pre tail : List Step) (b : String)
    (h : scripts.map Step.script = pre ++ Step.script b :: tail) :
    ∃ ps rest, scripts = ps ++ b :: rest ∧ pre = ps.map Step.script
      ∧ tail = rest.map Step.script := by
  rw [List.map_eq_append_iff] at h
  obtain ⟨l₁, l₂, hsc, hm1, hm2⟩ := h
  cases l₂ with
  | nil => simp at hm2
  | cons s₂ rest =>
    simp only [List.map_cons, List.cons.injEq, Step.script.injEq] at hm2
    obtain ⟨hb, ht⟩ := hm2
    subst hb
    exact ⟨l₁, rest, hsc, hm1.symm, ht.symm⟩

theorem map_file_decomp (deps : List FileDeployment) (pre tail : List Step)
    (d : FileDeployment) (h : deps.map Step.file = pre ++ Step.file d :: tail) :
    ∃ pd rest, deps = pd ++ d :: rest ∧ pre = pd.map Step.file
      ∧ tail = rest.map Step.file := by
  rw [List.map_eq_append_iff] at h
  obtain ⟨l₁, l₂, hsc, hm1, hm2⟩ := h
  cases l₂ with
  | nil => simp at hm2
  | cons d₂ rest =>
    simp only [List.map_cons, List.cons.injEq, Step.file.injEq] at hm2
    obtain ⟨hb, ht⟩ := hm2
    subst hb
    exact ⟨l₁, rest, hsc, hm1.symm, ht.symm⟩

theorem runPipeline_script_fail (c : SshClient) (env : SshEnv) (ps : List String)
    (b : String) (srest : List String) (deps : List FileDeployment) (sd fd rd : String)
    (hmk : executeCommandRes c env ("mkdir -p " ++ rd) = none)
    (hps : ∀ s ∈ ps, scriptOk c env sd rd s = true)
    (hb : scriptOk c env sd rd b = false) :
    ∃ e bOps, runPipeline c env (ps ++ b :: srest) deps sd fd rd
        = (ScpOp.command ("mkdir -p " ++ rd)
             :: (stepsOps sd fd rd (ps.map Step.script) ++ bOps),
           ps.map Step.script ++ [Step.script b],
           some (GoErr.wrap "failed to execute scripts" e))
      ∧ scriptFailCase c env sd rd b e bOps := by
  obtain ⟨e, bOps, hloop, hcase⟩ := executeScriptsLoop_head_fail c env sd rd b srest hb
  have hpref := executeScriptsLoop_prefix c env sd fd rd ps (b :: srest) hps
  refine ⟨e, bOps, ?_, hcase⟩
  simp [runPipeline, executeScripts, hmk, hpref, hloop]

theorem runPipeline_file_fail (c : SshClient) (env : SshEnv) (scripts : List String)
    (pd : List FileDeployment) (d : FileDeployment) (drest : List FileDeployment)
    (sd fd rd : String)
    (hmk : executeCommandRes c env ("mkdir -p " ++ rd) = none)
    (hscr : ∀ s ∈ scripts, scriptOk c env sd rd s = true)
    (hpd : ∀ x ∈ pd, fileOk c env fd x = true)
    (hd : fileOk c env fd d = false) :
    ∃ e bOps, runPipeline c env scripts (pd ++ d :: drest) sd fd rd
        = (ScpOp.command ("mkdir -p " ++ rd)
             :: (stepsOps sd fd rd (scripts.map Step.script ++ pd.map Step.file) ++ bOps),
           (scripts.map Step.script ++ pd.map Step.file) ++ [Step.file d],
           some (GoErr.wrap "failed to deploy files" e))
      ∧ fileFailCase c env fd d e bOps := by
  obtain ⟨e, bOps, hloop, hcase⟩ := deployFilesLoop_head_fail c env fd d drest hd
  have hS := executeScriptsLoop_all_ok c env sd fd rd scripts hscr
  have hF := deployFilesLoop_prefix c env sd fd rd pd (d :: drest) hpd
  refine ⟨e, bOps, ?_, hcase⟩
  simp [runPipeline, executeScripts, hmk, hS, hF, hloop, stepsOps_append]

/-- C4: given the declared step list (scripts first, then file
deployments) split as `pre ++ B :: post` where every step of `pre`
succeeds and `B` fails, the pipeline halts at `B`: the steps it processed
are exactly `pre ++ [B]` (so no step of `post` is ever attempted) and the
returned error identifies `B` by its script name or file path, wrapped in
the failing phase's message. -/
theorem pipeline_halts_at_first_failing_step (c : SshClient) (env : SshEnv)
    (scripts : List String) (deps : List FileDeployment) (sd fd rd : String)
    (pre : List Step) (B : Step) (post : List Step)
    (hsplit : stepList scripts deps = pre ++ B :: post)
    (hmk : executeCommandRes c env ("mkdir -p " ++ rd) = none)
    (hpre : ∀ st ∈ pre, stepOk c env sd fd rd st = true)
    (hB : stepOk c env sd fd rd B = false) :
    ∃ e, (runPipeline c env scripts deps sd fd rd).2.2
          = some (GoErr.wrap (phaseWrap B) e)
      ∧ stepErrFor sd fd B e
      ∧ (runPipeline c env scripts deps sd fd rd).2.1 = pre ++ [B] := by
  unfold stepList at hsplit
  rcases List.append_eq_append_iff.mp hsplit with ⟨a2, hpre2, hfile⟩ | ⟨c2, hscr2, hcons⟩
  · -- B lies among the file deployments; every script precedes it in pre.
    have hBfile : ∃ d, B = Step.file d := by
      have hmem : B ∈ deps.map Step.file := by
        rw [hfile]
        exact List.mem_append_right a2 (List.mem_cons_self B post)
      obtain ⟨d, _, hd⟩ := List.mem_map.mp hmem
      exact ⟨d, hd.symm⟩
    obtain ⟨d, rfl⟩ := hBfile
    obtain ⟨pd, drest, hdeps, hpd, _⟩ := map_file_decomp deps a2 post d hfile
    subst hdeps
    subst hpd
    subst hpre2
    have hscr : ∀ s ∈ scripts, scriptOk c env sd rd s = true := by
      intro s hs
      have := hpre (Step.script s)
        (List.mem_append_left _ (List.mem_map_of_mem Step.script hs))
      simpa [stepOk] using this
    have hpdok : ∀ x ∈ pd, fileOk c env fd x = true := by
      intro x hx
      have := hpre (Step.file x)
        (List.mem_append_right _ (List.mem_map_of_mem Step.file hx))
      simpa [stepOk] using this
    have hdbad : fileOk c env fd d = false := by simpa [stepOk] using hB
    obtain ⟨e, bOps, hrun, hcase⟩ :=
      runPipeline_file_fail c env scripts pd d drest sd fd rd hmk hscr hpdok hdbad
    exact ⟨e, by simp [hrun, phaseWrap],
      fileFailCase_errFor c env sd fd d e bOps hcase, by simp [hrun]⟩
  · -- B is a script, or pre covers all scripts and B heads the files.
    cases c2 with
    | nil =>
      -- pre equals the scripts part and B heads the file deployments.
      simp only [List.nil_append] at hcons
      rw [List.append_nil] at hscr2
      have hBfile : ∃ d, B = Step.file d := by
        have hmem : B ∈ deps.map Step.file := by
          rw [← hcons]; exact List.mem_cons_self B post
        obtain ⟨d, _, hd⟩ := List.mem_map.mp hmem
        exact ⟨d, hd.symm⟩
      obtain ⟨d, rfl⟩ := hBfile
      obtain ⟨pd, drest, hdeps, hpd, _⟩ := map_file_decomp deps [] post d hcons.symm
      subst hdeps
      have hpdnil : pd = [] := by
        cases pd with
        | nil => rfl
        | cons x xs => simp at hpd
      subst hpdnil
      subst hscr2
      have hscr : ∀ s ∈ scripts, scriptOk c env sd rd s = true := by
        intro s hs
        have := hpre (Step.script s) (List.mem_map_of_mem Step.script hs)
        simpa [stepOk] using this
      have hdbad : fileOk c env fd d = false := by simpa [stepOk] using hB
      obtain ⟨e, bOps, hrun, hcase⟩ :=
        runPipeline_file_fail c env scripts [] d drest sd fd rd hmk hscr
          (by intro x hx; simp at hx) hdbad
      refine ⟨e, ?_, fileFailCase_errFor c env sd fd d e bOps hcase, ?_⟩
      · simp only [List.map_nil, List.append_nil, List.nil_append] at hrun
        simp [hrun, phaseWrap]
      · simp only [List.map_nil, List.append_nil, List.nil_append] at hrun
        simp [hrun]
    | cons x c2' =>
      simp only [List.cons_append, List.cons.injEq] at hcons
      obtain ⟨hBx, hpost⟩ := hcons
      subst hBx
      have hBscript : ∃ b, B = Step.script b := by
        have hmem : B ∈ scripts.map Step.script := by
          rw [hscr2]
          exact List.mem_append_right pre (List.mem_cons_self B c2')
        obtain ⟨b, _, hb⟩ := List.mem_map.mp hmem
        exact ⟨b, hb.symm⟩
      obtain ⟨b, rfl⟩ := hBscript
      obtain ⟨ps, srest, hscripts, hps, _⟩ := map_script_decomp scripts pre c2' b hscr2
      subst hscripts
      subst hps
      have hpsok : ∀ s ∈ ps, scriptOk c env sd rd s = true := by
        intro s hs
        have := hpre (Step.script s) (List.mem_map_of_mem Step.script hs)
        simpa [stepOk] using this
      have hbbad : scriptOk c env sd rd b = false := by simpa [stepOk] using hB
      obtain ⟨e, bOps, hrun, hcase⟩ :=
        runPipeline_script_fail c env ps b srest deps sd fd rd hmk hpsok hbbad
      exact ⟨e, by simp [hrun, phaseWrap],
        scriptFailCase_errFor c env sd fd rd b e bOps hcase, by simp [hrun]⟩

theorem stepList_split_cases (scripts : List String) (deps : List FileDeployment)
    (pre : List Step) (B : Step) (post : List Step)
    (h : stepList scripts deps = pre ++ B :: post) :
    (∃ ps b srest, scripts = ps ++ b :: srest ∧ B = Step.script b
        ∧ pre = ps.map Step.script)
      ∨ (∃ pd d drest, deps = pd ++ d :: drest ∧ B = Step.file d
        ∧ pre = scripts.map Step.script ++ pd.map Step.file) := by
  unfold stepList at h
  rcases List.append_eq_append_iff.mp h with ⟨a2, hpre2, hfile⟩ | ⟨c2, hscr2, hcons⟩
  · have hBfile : ∃ d, B = Step.file d := by
      have hmem : B ∈ deps.map Step.file := by
        rw [hfile]
        exact List.mem_append_right a2 (List.mem_cons_self B post)
      obtain ⟨d, _, hd⟩ := List.mem_map.mp hmem
      exact ⟨d, hd.symm⟩
    obtain ⟨d, rfl⟩ := hBfile
    obtain ⟨pd, drest, hdeps, hpd, _⟩ := map_file_decomp deps a2 post d hfile
    exact Or.inr ⟨pd, d, drest, hdeps, rfl, by rw [hpre2, hpd]⟩
  · cases c2 with
    | nil =>
      simp only [List.nil_append] at hcons
      rw [List.append_nil] at hscr2
      have hBfile : ∃ d, B = Step.file d := by
        have hmem : B ∈ deps.map Step.file := by
          rw [← hcons]; exact List.mem_cons_self B post
        obtain ⟨d, _, hd⟩ := List.mem_map.mp hmem
        exact ⟨d, hd.symm⟩
      obtain ⟨d, rfl⟩ := hBfile
      obtain ⟨pd, drest, hdeps, hpd, _⟩ := map_file_decomp deps [] post d hcons.symm
      have hpdnil : pd = [] := by
        cases pd with
        | nil => rfl
        | cons x xs => simp at hpd
      subst hpdnil
      exact Or.inr ⟨[], d, drest, hdeps, rfl, by simp [hscr2.symm]⟩
    | cons x c2' =>
      simp only [List.cons_append, List.cons.injEq] at hcons
      obtain ⟨hBx, _⟩ := hcons
      subst hBx
      have hBscript : ∃ b, B = Step.script b := by
        have hmem : B ∈ scripts.map Step.script := by
          rw [hscr2]
          exact List.mem_append_right pre (List.mem_cons_self B c2')
        obtain ⟨b, _, hb⟩ := List.mem_map.mp hmem
        exact ⟨b, hb.symm⟩
      obtain ⟨b, rfl⟩ := hBscript
      obtain ⟨ps, srest, hscripts, hps, _⟩ := map_script_decomp scripts pre c2' b hscr2
      exact Or.inl ⟨ps, b, srest, hscripts, rfl, hps⟩

/-- C5: when the steps before `B` all succeed and `B`'s local source file
is missing (`os.Stat` reports not-exists), the pipeline fails with the
pre-network validation error naming the missing path, and the client
operations invoked are exactly those of the preceding steps — no upload
and no remote command is ever issued for `B`. -/
theorem missing_source_detected_before_network (c : SshClient) (env : SshEnv)
    (scripts : List String) (deps : List FileDeployment) (sd fd rd : String)
    (pre : List Step) (B : Step) (post : List Step)
    (hsplit : stepList scripts deps = pre ++ B :: post)
    (hmk : executeCommandRes c env ("mkdir -p " ++ rd) = none)
    (hpre : ∀ st ∈ pre, stepOk c env sd fd rd st = true)
    (hmiss : env.stat (localPathOf sd fd B) = StatRes.errNotExist) :
    (runPipeline c env scripts deps sd fd rd).2.2
        = some (GoErr.wrap (phaseWrap B) (notFoundErr sd fd B))
      ∧ (runPipeline c env scripts deps sd fd rd).2.1 = pre ++ [B]
      ∧ (runPipeline c env scripts deps sd fd rd).1
          = ScpOp.command ("mkdir -p " ++ rd) :: stepsOps sd fd rd pre := by
  rcases stepList_split_cases scripts deps pre B post hsplit with
    ⟨ps, b, srest, hscripts, hBb, hpreps⟩ | ⟨pd, d, drest, hdeps, hBd, hprepd⟩
  · subst hBb
    subst hscripts
    subst hpreps
    simp only [localPathOf] at hmiss
    have hpsok : ∀ s ∈ ps, scriptOk c env sd rd s = true := by
      intro s hs
      have := hpre (Step.script s) (List.mem_map_of_mem Step.script hs)
      simpa [stepOk] using this
    have hbbad : scriptOk c env sd rd b = false := by
      simp [scriptOk, hmiss]
    obtain ⟨e, bOps, hrun, hcase⟩ :=
      runPipeline_script_fail c env ps b srest deps sd fd rd hmk hpsok hbbad
    rcases hcase with ⟨_, he, hbops⟩ | ⟨hne, _, _⟩ | ⟨hne, _, _, _⟩
    · subst he
      subst hbops
      refine ⟨?_, ?_, ?_⟩ <;> simp [hrun, phaseWrap, notFoundErr]
    · exact absurd hmiss hne
    · exact absurd hmiss hne
  · subst hBd
    subst hdeps
    subst hprepd
    simp only [localPathOf] at hmiss
    have hscr : ∀ s ∈ scripts, scriptOk c env sd rd s = true := by
      intro s hs
      have := hpre (Step.script s)
        (List.mem_append_left _ (List.mem_map_of_mem Step.script hs))
      simpa [stepOk] using this
    have hpdok : ∀ x ∈ pd, fileOk c env fd x = true := by
      intro x hx
      have := hpre (Step.file x)
        (List.mem_append_right _ (List.mem_map_of_mem Step.file hx))
      simpa [stepOk] using this
    have hdbad : fileOk c env fd d = false := by
      simp [fileOk, hmiss]
    obtain ⟨e, bOps, hrun, hcase⟩ :=
      runPipeline_file_fail c env scripts pd d drest sd fd rd hmk hscr hpdok hdbad
    rcases hcase with ⟨_, he, hbops⟩ | ⟨hne, _, _⟩ | ⟨hne, _, _, _⟩ | ⟨hne, _, _, _, _⟩
    · subst he
      subst hbops
      refine ⟨?_, ?_, ?_⟩ <;> simp [hrun, phaseWrap, notFoundErr]
    · exact absurd hmiss hne
    · exact absurd hmiss hne
    · exact absurd hmiss hne

/-- C10: when `os.Stat` on a step's local source fails with an error
other than not-exists, the pre-check passes (it only reacts to
`os.IsNotExist`) and the pipeline proceeds to attempt the step's upload,
where the failure surfaces as a transfer error wrapping `failed to open
local file` — not as the pre-network validation error — and the step's
copy attempt appears among the invoked client operations. -/
theorem stat_other_error_passes_precheck (c : SshClient) (env : SshEnv)
    (scripts : List String) (deps : List FileDeployment) (sd fd rd : String)
    (pre : List Step) (B : Step) (post : List Step) (oe : GoErr)
    (hsplit : stepList scripts deps = pre ++ B :: post)
    (hconn : c.connected = true)
    (hmk : executeCommandRes c env ("mkdir -p " ++ rd) = none)
    (hpre : ∀ st ∈ pre, stepOk c env sd fd rd st = true)
    (hstat : env.stat (localPathOf sd fd B) = StatRes.errOther)
    (hopen : env.openLocal (localPathOf sd fd B) = some oe)
    (hdir : ∀ d, B = Step.file d →
      executeCommandRes c env ("sudo mkdir -p " ++ dirname d.RemotePath) = none) :
    (runPipeline c env scripts deps sd fd rd).2.2
        = some (GoErr.wrap (phaseWrap B)
            (copyFailErr B (GoErr.wrap "failed to open local file" oe)))
      ∧ (runPipeline c env scripts deps sd fd rd).2.1 = pre ++ [B]
      ∧ (runPipeline c env scripts deps sd fd rd).1
          = ScpOp.command ("mkdir -p " ++ rd)
              :: (stepsOps sd fd rd pre ++ copyAttemptOps sd fd rd B) := by
  rcases stepList_split_cases scripts deps pre B post hsplit with
    ⟨ps, b, srest, hscripts, hBb, hpreps⟩ | ⟨pd, d, drest, hdeps, hBd, hprepd⟩
  · subst hBb
    subst hscripts
    subst hpreps
    simp only [localPathOf] at hstat hopen
    have hne : env.stat (joinPath sd b) ≠ StatRes.errNotExist := by
      rw [hstat]; intro hc; cases hc
    have hcopy : copyFileRes c env (joinPath sd b) (joinPath rd b)
        = some (GoErr.wrap "failed to open local file" oe) := by
      simp [copyFileRes, hconn, hopen]
    have hpsok : ∀ s ∈ ps, scriptOk c env sd rd s = true := by
      intro s hs
      have := hpre (Step.script s) (List.mem_map_of_mem Step.script hs)
      simpa [stepOk] using this
    have hbbad : scriptOk c env sd rd b = false := by
      simp [scriptOk, hcopy]
    obtain ⟨e, bOps, hrun, hcase⟩ :=
      runPipeline_script_fail c env ps b srest deps sd fd rd hmk hpsok hbbad
    rcases hcase with ⟨hmiss, _, _⟩ | ⟨_, ⟨ce, hce, he⟩, hbops⟩ | ⟨_, hcnone, _, _⟩
    · exact absurd hmiss hne
    · rw [hcopy] at hce
      injection hce with hce
      subst hce
      subst he
      subst hbops
      refine ⟨?_, ?_, ?_⟩ <;> simp [hrun, phaseWrap, copyFailErr, copyAttemptOps]
    · rw [hcopy] at hcnone
      cases hcnone
  · subst hBd
    subst hdeps
    subst hprepd
    simp only [localPathOf] at hstat hopen
    have hne : env.stat (joinPath fd d.LocalPath) ≠ StatRes.errNotExist := by
      rw [hstat]; intro hc; cases hc
    have hcopy : copyFileRes c env (joinPath fd d.LocalPath)
        ("/tmp/" ++ basename d.LocalPath)
        = some (GoErr.wrap "failed to open local file" oe) := by
      simp [copyFileRes, hconn, hopen]
    have hdirok := hdir d rfl
    have hscr : ∀ s ∈ scripts, scriptOk c env sd rd s = true := by
      intro s hs
      have := hpre (Step.script s)
        (List.mem_append_left _ (List.mem_map_of_mem Step.script hs))
      simpa [stepOk] using this
    have hpdok : ∀ x ∈ pd, fileOk c env fd x = true := by
      intro x hx
      have := hpre (Step.file x)
        (List.mem_append_right _ (List.mem_map_of_mem Step.file hx))
      simpa [stepOk] using this
    have hdbad : fileOk c env fd d = false := by
      simp [fileOk, hcopy]
    obtain ⟨e, bOps, hrun, hcase⟩ :=
      runPipeline_file_fail c env scripts pd d drest sd fd rd hmk hscr hpdok hdbad
    rcases hcase with ⟨hmiss, _, _⟩ | ⟨_, ⟨ce, hce, _⟩, _⟩
      | ⟨_, _, ⟨ce, hce, he⟩, hbops⟩ | ⟨_, _, hcnone, _, _⟩
    · exact absurd hmiss hne
    · rw [hdirok] at hce
      cases hce
    · rw [hcopy] at hce
      injection hce with hce
      subst hce
      subst he
      subst hbops
      refine ⟨?_, ?_, ?_⟩ <;> simp [hrun, phaseWrap, copyFailErr, copyAttemptOps]
    · rw [hcopy] at hcnone
      cases hcnone

/-- The connected client used by the pipeline witnesses. -/
def sshOkClient : SshClient := ⟨true⟩

/-- Environment in which remotely executing `s2.sh` fails and everything
else succeeds. -/
def envS2Fails : SshEnv where
  stat := fun _ => StatRes.ok
  openLocal := fun _ => none
  run := fun op =>
    if op = ScpOp.command "/tmp/provisioning-scripts/s2.sh"
    then some (GoErr.msg "Process exited with status 1") else none
  closeResult := none

/-- Witness for `pipeline_halts_at_first_failing_step`: with scripts
`[s1.sh, s2.sh, s3.sh]` and `s2.sh` failing remotely, the pipeline stops
after `s2.sh` and reports it. -/
theorem pipeline_halts_at_first_failing_step_witness :
    ∃ e, (runPipeline sshOkClient envS2Fails ["s1.sh", "s2.sh", "s3.sh"] []
            "scripts" "files" "/tmp/provisioning-scripts").2.2
          = some (GoErr.wrap (phaseWrap (Step.script "s2.sh")) e)
      ∧ stepErrFor "scripts" "files" (Step.script "s2.sh") e
      ∧ (runPipeline sshOkClient envS2Fails ["s1.sh", "s2.sh", "s3.sh"] []
            "scripts" "files" "/tmp/provisioning-scripts").2.1
          = [Step.script "s1.sh"] ++ [Step.script "s2.sh"] :=
  pipeline_halts_at_first_failing_step sshOkClient envS2Fails
    ["s1.sh", "s2.sh", "s3.sh"] [] "scripts" "files" "/tmp/provisioning-scripts"
    [Step.script "s1.sh"] (Step.script "s2.sh") [Step.script "s3.sh"]
    rfl (by decide) (by decide) (by decide)

/-- Environment in which the local file `scripts/s2.sh` does not exist. -/
def envS2Missing : SshEnv where
  stat := fun p => if p = "scripts/s2.sh" then StatRes.errNotExist else StatRes.ok
  openLocal := fun _ => none
  run := fun _ => none
  closeResult := none

/-- Witness for `missing_source_detected_before_network`: with
`scripts/s2.sh` absent locally, the pipeline reports the missing path and
invokes no client operation for that step. -/
theorem missing_source_detected_before_network_witness :
    (runPipeline sshOkClient envS2Missing ["s1.sh", "s2.sh", "s3.sh"] []
          "scripts" "files" "/tmp/provisioning-scripts").2.2
        = some (GoErr.wrap (phaseWrap (Step.script "s2.sh"))
            (notFoundErr "scripts" "files" (Step.script "s2.sh")))
      ∧ (runPipeline sshOkClient envS2Missing ["s1.sh", "s2.sh", "s3.sh"] []
            "scripts" "files" "/tmp/provisioning-scripts").2.1
          = [Step.script "s1.sh"] ++ [Step.script "s2.sh"]
      ∧ (runPipeline sshOkClient envS2Missing ["s1.sh", "s2.sh", "s3.sh"] []
            "scripts" "files" "/tmp/provisioning-scripts").1
          = ScpOp.command ("mkdir -p " ++ "/tmp/provisioning-scripts")
              :: stepsOps "scripts" "files" "/tmp/provisioning-scripts"
                  [Step.script "s1.sh"] :=
  missing_source_detected_before_network sshOkClient envS2Missing
    ["s1.sh", "s2.sh", "s3.sh"] [] "scripts" "files" "/tmp/provisioning-scripts"
    [Step.script "s1.sh"] (Step.script "s2.sh") [Step.script "s3.sh"]
    rfl (by decide) (by decide) (by decide)

/-- The file deployment used by the C10 witness. -/
def runscDeploy : FileDeployment :=
  { LocalPath := "runsc.toml", RemotePath := "/etc/containerd/runsc.toml" }

/-- Environment in which stat-ing `files/runsc.toml` fails with an error
other than not-exists (e.g. permission denied), so opening it fails too. -/
def envRunscUnreadable : SshEnv where
  stat := fun p => if p = "files/runsc.toml" then StatRes.errOther else StatRes.ok
  openLocal := fun p =>
    if p = "files/runsc.toml" then some (GoErr.msg "permission denied") else none
  run := fun _ => none
  closeResult := none

/-- Witness for `stat_other_error_passes_precheck`: a permission-denied
stat on `files/runsc.toml` passes the pre-check and surfaces inside the
step's copy attempt as a transfer failure. -/
theorem stat_other_error_passes_precheck_witness :
    (runPipeline sshOkClient envRunscUnreadable ["s1.sh"] [runscDeploy]
          "scripts" "files" "/tmp/provisioning-scripts").2.2
        = some (GoErr.wrap (phaseWrap (Step.file runscDeploy))
            (copyFailErr (Step.file runscDeploy)
              (GoErr.wrap "failed to open local file" (GoErr.msg "permission denied"))))
      ∧ (runPipeline sshOkClient envRunscUnreadable ["s1.sh"] [runscDeploy]
            "scripts" "files" "/tmp/provisioning-scripts").2.1
          = [Step.script "s1.sh"] ++ [Step.file runscDeploy]
      ∧ (runPipeline sshOkClient envRunscUnreadable ["s1.sh"] [runscDeploy]
            "scripts" "files" "/tmp/provisioning-scripts").1
          = ScpOp.command ("mkdir -p " ++ "/tmp/provisioning-scripts")
              :: (stepsOps "scripts" "files" "/tmp/provisioning-scripts"
                    [Step.script "s1.sh"]
                  ++ copyAttemptOps "scripts" "files" "/tmp/provisioning-scripts"
                      (Step.file runscDeploy)) :=
  stat_other_error_passes_precheck sshOkClient envRunscUnreadable ["s1.sh"]
    [runscDeploy] "scripts" "files" "/tmp/provisioning-scripts"
    [Step.script "s1.sh"] (Step.file runscDeploy) [] (GoErr.msg "permission denied")
    rfl rfl (by decide) (by decide) (by decide) (by decide)
    (fun d hd => by cases hd; decide)
